import Mathlib

/-!
Shallow embedding of the `cgp-patterns` repository (src/src/lib.rs and
src/src/main.rs): a context-generic config loader whose context `App` wires a
JSON config loader, a type-keyed error-raiser table and a type-keyed
error-wrapper table onto the unified error type `anyhow::Error`.

External collaborators (the filesystem, `serde_json`, `anyhow`) are modelled
explicitly: the filesystem as a function from paths to read results,
`anyhow::Error` as a root source error plus a stack of context annotations
(outermost first), and `serde_json` for the one schema the program uses
(`AppConfig \x7b secret: String \x7d`) as an executable serializer/parser pair
over character lists.
-/

namespace CgpPatterns

/-- Model of `std::path::PathBuf` for the UTF-8 paths this program uses;
`Path::display` is the identity on such paths. -/
abbrev Path := String

/-- Model of `std::io::Error`: the payload the program can observe is its
message (rendered by `Display`/`Debug`). -/
structure IoErr where
  msg : String
deriving DecidableEq

/-- Model of `serde_json::Error`: the payload the program can observe is its
message. -/
structure SerdeErr where
  msg : String
deriving DecidableEq

/-- The source-error values the `App` context can raise: exactly the two types
registered in the `RaiseAppErrors` table (src/src/lib.rs lines 214-222). -/
inductive SourceError where
  | io (e : IoErr)
  | serde (e : SerdeErr)
deriving DecidableEq

/-- The `Display` rendering of a source error, used when `anyhow` prints the
cause chain. -/
def SourceError.message : SourceError → String
  | .io e => e.msg
  | .serde e => e.msg

/-- Model of `anyhow::Error`: the originally raised source error (the root
cause) together with the context annotations attached by
`anyhow::Error::context`, outermost (most recently attached) first. -/
structure AnyhowError where
  source : SourceError
  contexts : List String
deriving DecidableEq

/-- Model of `anyhow::Error::context`: attach one more annotation on the
outside of the chain; the previous error becomes the new error's source. -/
def AnyhowError.context (e : AnyhowError) (msg : String) : AnyhowError :=
  AnyhowError.mk e.source (msg :: e.contexts)

/-- The chain `anyhow`'s `Debug` implementation prints: every context
annotation from outermost inward, then the root cause's message. -/
def AnyhowError.renderChain (e : AnyhowError) : List String :=
  e.contexts ++ [e.source.message]

/-- Model of `anyhow`'s blanket `From<E> for anyhow::Error`: the new unified
error owns the source error value unchanged and carries no annotation yet. -/
class IntoAnyhow (α : Type) where
  into : α → AnyhowError

instance instIntoAnyhowIoErr : IntoAnyhow IoErr :=
  IntoAnyhow.mk (fun e => AnyhowError.mk (SourceError.io e) [])

instance instIntoAnyhowSerdeErr : IntoAnyhow SerdeErr :=
  IntoAnyhow.mk (fun e => AnyhowError.mk (SourceError.serde e) [])

/-! JSON codec for the `AppConfig` schema (model of `serde_json::to_string` /
`serde_json::from_slice::<AppConfig>` for the derived `Deserialize` of
`struct AppConfig \x7b pub secret: String \x7d`, src/src/lib.rs lines 190-193).
The serializer produces serde's compact form; the parser accepts exactly that
grammar and reports a `SerdeErr` otherwise. -/

/-- JSON string escaping of one character, as `serde_json` emits it for the
escapes this model tracks. -/
def encodeChar (c : Char) : List Char :=
  if c = '"' then ['\\', '"']
  else if c = '\\' then ['\\', '\\']
  else if c = '\n' then ['\\', 'n']
  else if c = '\t' then ['\\', 't']
  else if c = '\r' then ['\\', 'r']
  else [c]

/-- JSON string escaping of a whole string body. -/
def encodeStr : List Char → List Char
  | [] => []
  | c :: cs => encodeChar c ++ encodeStr cs

/-- Decode one escape character following a backslash. -/
def decodeEsc (c : Char) : Option Char :=
  if c = '"' then some '"'
  else if c = '\\' then some '\\'
  else if c = 'n' then some '\n'
  else if c = 't' then some '\t'
  else if c = 'r' then some '\r'
  else none

/-- Parse a JSON string body up to and including its closing quote, returning
the decoded body and the remaining input. -/
def decodeStr : List Char → Option (List Char × List Char)
  | [] => none
  | c :: rest =>
    if c = '"' then some ([], rest)
    else if c = '\\' then
      match rest with
      | [] => none
      | e :: rest2 =>
        match decodeEsc e with
        | none => none
        | some d =>
          match decodeStr rest2 with
          | none => none
          | some (s, r) => some (d :: s, r)
    else
      match decodeStr rest with
      | none => none
      | some (s, r) => some (c :: s, r)

/-- Consume an expected literal from the front of the input. -/
def expectLit : List Char → List Char → Option (List Char)
  | [], l => some l
  | _ :: _, [] => none
  | p :: ps, c :: cs => if p = c then expectLit ps cs else none

/-- The config type of the `App` context (src/src/lib.rs lines 190-193). -/
structure AppConfig where
  secret : String
deriving DecidableEq

/-- The opening of the serialized `AppConfig` object up to the start of the
secret's string body: an opening brace, the quoted key `secret`, a colon and
an opening quote. -/
def jsonOpen : List Char :=
  ['\x7b', '"', 's', 'e', 'c', 'r', 'e', 't', '"', ':', '"']

/-- Model of `serde_json::to_string` on an `AppConfig` value (compact form). -/
def serializeAppConfig (c : AppConfig) : List Char :=
  jsonOpen ++ encodeStr c.secret.data ++ ['"', '\x7d']

/-- Model of `serde_json::from_slice::<AppConfig>`: accepts the compact
serialized form and fails with a `SerdeErr` on anything else. -/
def parseAppConfig (bytes : List Char) : Except SerdeErr AppConfig :=
  match expectLit jsonOpen bytes with
  | none => Except.error (SerdeErr.mk "expected a JSON object with a string field secret")
  | some rest =>
    match decodeStr rest with
    | none => Except.error (SerdeErr.mk "invalid JSON string")
    | some (s, rest2) =>
      if rest2 = ['\x7d'] then Except.ok (AppConfig.mk (String.mk s))
      else Except.error (SerdeErr.mk "unexpected trailing characters")

lemma decodeStr_nil : decodeStr [] = none := rfl

lemma decodeStr_cons (c : Char) (rest : List Char) :
    decodeStr (c :: rest) =
      if c = '"' then some ([], rest)
      else if c = '\\' then
        match rest with
        | [] => none
        | e :: rest2 =>
          match decodeEsc e with
          | none => none
          | some d =>
            match decodeStr rest2 with
            | none => none
            | some (s, r) => some (d :: s, r)
      else
        match decodeStr rest with
        | none => none
        | some (s, r) => some (c :: s, r) := by
  rw [decodeStr.eq_def]

lemma expectLit_append (p l : List Char) : expectLit p (p ++ l) = some l := by
  induction p with
  | nil => rfl
  | cons c cs ih => simp [expectLit, ih]

lemma decodeStr_encodeStr (s rest : List Char) :
    decodeStr (encodeStr s ++ '"' :: rest) = some (s, rest) := by
  induction s with
  | nil => simp [encodeStr, decodeStr_cons]
  | cons c cs ih =>
    by_cases h1 : c = '"'
    · subst h1
      simp [encodeStr, encodeChar, decodeStr_cons, decodeEsc, ih]
    · by_cases h2 : c = '\\'
      · subst h2
        simp [encodeStr, encodeChar, decodeStr_cons, decodeEsc, ih]
      · by_cases h3 : c = '\n'
        · subst h3
          simp [encodeStr, encodeChar, decodeStr_cons, decodeEsc, ih]
        · by_cases h4 : c = '\t'
          · subst h4
            simp [encodeStr, encodeChar, decodeStr_cons, decodeEsc, ih]
          · by_cases h5 : c = '\r'
            · subst h5
              simp [encodeStr, encodeChar, decodeStr_cons, decodeEsc, ih]
            · simp [encodeStr, encodeChar, h1, h2, h3, h4, h5, decodeStr_cons, ih]

lemma parse_serialize (v : AppConfig) :
    parseAppConfig (serializeAppConfig v) = Except.ok v := by
  obtain ⟨⟨l⟩⟩ := v
  have h1 : serializeAppConfig (AppConfig.mk (String.mk l)) =
      jsonOpen ++ (encodeStr l ++ '"' :: ['\x7d']) := by
    simp [serializeAppConfig]
  rw [h1]
  simp [parseAppConfig, expectLit_append, decodeStr_encodeStr]

/-! The `App` context and its component wiring (src/src/lib.rs lines 174-244),
the error providers (lines 131-171) and the config loader (lines 59-129). -/

/-- The `App` context (src/src/lib.rs lines 186-188). -/
structure App where
  config_path : Path
deriving DecidableEq

/-- The unified error type of `App`: `ErrorTypeComponent` is wired to
`UseAnyhowError` (lines 131-135 and 207), whose associated type is
`anyhow::Error`. -/
abbrev App.Error : Type := AnyhowError

/-- `ConfigPathGetter for AppComponents` (src/src/lib.rs lines 235-239). -/
def AppComponents.configPath (app : App) : Path :=
  app.config_path

/-- The context method `config_path` resolved through `AppComponents`
(`HasComponents for App`, lines 201-203). -/
def App.configPath (app : App) : Path :=
  AppComponents.configPath app

/-- The two source-error types registered in the `RaiseAppErrors` delegation
table (src/src/lib.rs lines 214-222). -/
inductive SourceErrorType where
  | ioError
  | serdeJsonError
deriving DecidableEq

/-- The Rust type each registered source-error type tag stands for. -/
def SourceErrorType.Carrier : SourceErrorType → Type
  | .ioError => IoErr
  | .serdeJsonError => SerdeErr

/-- Inject a typed source-error value into the sum of raisable errors. -/
def SourceError.ofTyped : (t : SourceErrorType) → t.Carrier → SourceError
  | .ioError, e => .io e
  | .serdeJsonError, e => .serde e

/-- `ErrorRaiser for RaiseFrom` (src/src/lib.rs lines 137-147): raise by the
`From` conversion into the unified error type. -/
def RaiseFrom.raiseError {α : Type} [IntoAnyhow α] (e : α) : AnyhowError :=
  IntoAnyhow.into e

/-- The `RaiseAppErrors` delegation table (src/src/lib.rs lines 214-222): both
`io::Error` and `serde_json::Error` delegate to `RaiseFrom`. -/
def RaiseAppErrors.delegate : (t : SourceErrorType) → t.Carrier → AnyhowError
  | .ioError => fun (e : IoErr) => RaiseFrom.raiseError e
  | .serdeJsonError => fun (e : SerdeErr) => RaiseFrom.raiseError e

/-- `ErrorRaiser for UseDelegate<RaiseAppErrors>`: look the source-error type
up in the table and call the delegate provider. -/
def UseDelegate.raiseError (t : SourceErrorType) (e : t.Carrier) : AnyhowError :=
  RaiseAppErrors.delegate t e

/-- The context method `raise_error` of `App`: `ErrorRaiserComponent` is wired
to `UseDelegate<RaiseAppErrors>` (line 208). -/
def App.raiseError (t : SourceErrorType) (e : t.Carrier) : AnyhowError :=
  UseDelegate.raiseError t e

/-- The action field of the config-loader error detail
(src/src/lib.rs lines 67-70). -/
inductive LoadJsonConfigAction where
  | ReadFile
  | ParseFile
deriving DecidableEq

/-- The error detail attached by the config loader
(src/src/lib.rs lines 61-65); the Rust struct borrows the context and the
path, modelled here by carrying their values. -/
structure ErrLoadJsonConfig (Context : Type) where
  context : Context
  config_path : Path
  action : LoadJsonConfigAction

/-- Model of Rust's `Debug` trait: the string `format!("\x7b:?\x7d")` renders. -/
class DebugFmt (α : Type) where
  fmt : α → String

/-- Model of Rust's `Display` trait. -/
class DisplayFmt (α : Type) where
  fmt : α → String

/-- The `Debug` implementation for `ErrLoadJsonConfig`
(src/src/lib.rs lines 110-129). -/
def errLoadJsonConfigDebug {Context : Type} (e : ErrLoadJsonConfig Context) : String :=
  match e.action with
  | .ReadFile => "error when reading config file at path " ++ e.config_path
  | .ParseFile => "error when parsing JSON config file at path " ++ e.config_path

instance instDebugFmtErrLoadJsonConfig {Context : Type} :
    DebugFmt (ErrLoadJsonConfig Context) :=
  DebugFmt.mk errLoadJsonConfigDebug

/-- `ErrorWrapper for WrapWithAnyhowDebug` (src/src/lib.rs lines 161-171):
attach the detail's `Debug` rendering as a context annotation. -/
def WrapWithAnyhowDebug.wrapError {Detail : Type} [DebugFmt Detail]
    (error : AnyhowError) (detail : Detail) : AnyhowError :=
  error.context (DebugFmt.fmt detail)

/-- `ErrorWrapper for WrapWithAnyhowContext` (src/src/lib.rs lines 149-159):
attach the detail's `Display` rendering as a context annotation. Present in
the source but not wired into `App`. -/
def WrapWithAnyhowContext.wrapError {Detail : Type} [DisplayFmt Detail]
    (error : AnyhowError) (detail : Detail) : AnyhowError :=
  error.context (DisplayFmt.fmt detail)

/-- The `WrapAppErrors` delegation table (src/src/lib.rs lines 224-229): its
single entry maps the detail type `ErrLoadJsonConfig<'a, Context>` (for every
`Context`) to the provider `WrapWithAnyhowDebug`. -/
def WrapAppErrors.delegateErrLoadJsonConfig (Context : Type) :
    AnyhowError → ErrLoadJsonConfig Context → AnyhowError :=
  WrapWithAnyhowDebug.wrapError

/-- `ErrorWrapper for UseDelegate` (src/src/lib.rs lines 36-45): look the
detail type up in the table and call the delegate provider's `wrap_error`. -/
def UseDelegate.wrapError {Context : Type} (error : AnyhowError)
    (detail : ErrLoadJsonConfig Context) : AnyhowError :=
  WrapAppErrors.delegateErrLoadJsonConfig Context error detail

/-- The context method `wrap_error` of `App`: `ErrorWrapperComponent` is wired
to `UseDelegate<WrapAppErrors>` (line 209). -/
def App.wrapError (error : AnyhowError) (detail : ErrLoadJsonConfig App) :
    AnyhowError :=
  UseDelegate.wrapError error detail

/-- The filesystem the program runs against: `fs::read` either returns the
file's bytes or an `io::Error` (missing file, unreadable file, ...). -/
structure FS where
  read : Path → Except IoErr (List Char)

/-- `ConfigLoader for LoadJsonConfig` (src/src/lib.rs lines 72-108),
instantiated at the `App` context: read the file at the context's config path,
parse it as JSON, and on either failure raise the source error and wrap it
with an `ErrLoadJsonConfig` detail. -/
def LoadJsonConfig.loadConfig (fs : FS) (context : App) :
    Except App.Error AppConfig :=
  let config_path := App.configPath context
  match fs.read config_path with
  | .error e =>
    .error (App.wrapError (App.raiseError .ioError e)
      (ErrLoadJsonConfig.mk context config_path .ReadFile))
  | .ok config_bytes =>
    match parseAppConfig config_bytes with
    | .error e =>
      .error (App.wrapError (App.raiseError .serdeJsonError e)
        (ErrLoadJsonConfig.mk context config_path .ParseFile))
    | .ok config => .ok config

/-- The same loader with the context threaded explicitly as state: the source
takes the context by shared reference (`&Context`) and `App` has no interior
mutability, so every access is a read and each branch returns the context it
was given. -/
def LoadJsonConfig.loadConfigSt (fs : FS) (context : App) :
    Except App.Error AppConfig × App :=
  let config_path := App.configPath context
  match fs.read config_path with
  | .error e =>
    (.error (App.wrapError (App.raiseError .ioError e)
      (ErrLoadJsonConfig.mk context config_path .ReadFile)), context)
  | .ok config_bytes =>
    match parseAppConfig config_bytes with
    | .error e =>
      (.error (App.wrapError (App.raiseError .serdeJsonError e)
        (ErrLoadJsonConfig.mk context config_path .ParseFile)), context)
    | .ok config => (.ok config, context)

/-- The observable outcome of running the process: normal termination with
exit status 0, or a panic, which prints the panic payload and terminates the
process with a non-zero status (Rust uses 101). -/
inductive ProcessExit where
  | success
  | panicked (printedChain : List String)
deriving DecidableEq

/-- The exit status of each outcome. -/
def ProcessExit.exitCode : ProcessExit → Nat
  | .success => 0
  | .panicked _ => 101

/-- The program entry point (src/src/main.rs lines 4-10): build one `App`
with the fixed config path `Cargo.toml`, call `load_config` once and
`unwrap()` the result; `unwrap` on an `Err` panics, printing the error's
`Debug` rendering, which for `anyhow::Error` is the whole context chain down
to the root cause. -/
def main (fs : FS) : ProcessExit :=
  let app := App.mk "Cargo.toml"
  match LoadJsonConfig.loadConfig fs app with
  | .ok _ => .success
  | .error e => .panicked e.renderChain

/-! Helper lemmas about the loader's three outcomes. -/

lemma wrap_raise_io (app : App) (p : Path) (e : IoErr) (a : LoadJsonConfigAction) :
    App.wrapError (App.raiseError .ioError e) (ErrLoadJsonConfig.mk app p a) =
      AnyhowError.mk (SourceError.io e)
        [errLoadJsonConfigDebug (ErrLoadJsonConfig.mk app p a)] :=
  rfl

lemma wrap_raise_serde (app : App) (p : Path) (e : SerdeErr) (a : LoadJsonConfigAction) :
    App.wrapError (App.raiseError .serdeJsonError e) (ErrLoadJsonConfig.mk app p a) =
      AnyhowError.mk (SourceError.serde e)
        [errLoadJsonConfigDebug (ErrLoadJsonConfig.mk app p a)] :=
  rfl

lemma loadConfig_read_error (fs : FS) (app : App) (e : IoErr)
    (h : fs.read app.config_path = .error e) :
    LoadJsonConfig.loadConfig fs app =
      .error (AnyhowError.mk (SourceError.io e)
        ["error when reading config file at path " ++ app.config_path]) := by
  simp only [LoadJsonConfig.loadConfig, App.configPath, AppComponents.configPath, h]
  rfl

lemma loadConfig_parse_error (fs : FS) (app : App) (bytes : List Char) (e : SerdeErr)
    (h1 : fs.read app.config_path = .ok bytes)
    (h2 : parseAppConfig bytes = .error e) :
    LoadJsonConfig.loadConfig fs app =
      .error (AnyhowError.mk (SourceError.serde e)
        ["error when parsing JSON config file at path " ++ app.config_path]) := by
  simp only [LoadJsonConfig.loadConfig, App.configPath, AppComponents.configPath, h1, h2]
  rfl

lemma loadConfig_ok (fs : FS) (app : App) (bytes : List Char) (c : AppConfig)
    (h1 : fs.read app.config_path = .ok bytes)
    (h2 : parseAppConfig bytes = .ok c) :
    LoadJsonConfig.loadConfig fs app = .ok c := by
  simp only [LoadJsonConfig.loadConfig, App.configPath, AppComponents.configPath, h1, h2]

lemma loadConfig_error_inv (fs : FS) (app : App) (err : App.Error)
    (h : LoadJsonConfig.loadConfig fs app = .error err) :
    (∃ e, fs.read app.config_path = .error e) ∨
    (∃ bytes e, fs.read app.config_path = .ok bytes ∧ parseAppConfig bytes = .error e) := by
  cases hr : fs.read app.config_path with
  | error e => exact Or.inl ⟨e, rfl⟩
  | ok bytes =>
    cases hp : parseAppConfig bytes with
    | error e => exact Or.inr ⟨bytes, e, rfl, hp⟩
    | ok c =>
      rw [loadConfig_ok fs app bytes c hr hp] at h
      exact absurd h (by simp)

/-! Claim theorems. -/

/-- C1: for every config value `v`, serializing `v` to JSON and placing it at
the context's config path makes `load_config` return `Ok` with a value equal
to `v`; a file with malformed JSON yields the serde (Format) error wrapped
with the file path; a non-existent/unreadable path yields the io (Transport)
error wrapped with the file path; and these are the only failure
conditions. -/
theorem load_config_json_roundtrip_and_failure_modes :
    (∀ (v : AppConfig) (fs : FS) (app : App),
      fs.read app.config_path = .ok (serializeAppConfig v) →
      LoadJsonConfig.loadConfig fs app = .ok v) ∧
    (∀ (fs : FS) (app : App) (bytes : List Char) (e : SerdeErr),
      fs.read app.config_path = .ok bytes →
      parseAppConfig bytes = .error e →
      LoadJsonConfig.loadConfig fs app =
        .error (AnyhowError.mk (SourceError.serde e)
          ["error when parsing JSON config file at path " ++ app.config_path])) ∧
    (∀ (fs : FS) (app : App) (e : IoErr),
      fs.read app.config_path = .error e →
      LoadJsonConfig.loadConfig fs app =
        .error (AnyhowError.mk (SourceError.io e)
          ["error when reading config file at path " ++ app.config_path])) ∧
    (∀ (fs : FS) (app : App) (err : App.Error),
      LoadJsonConfig.loadConfig fs app = .error err →
      (∃ e, fs.read app.config_path = .error e) ∨
      (∃ bytes e, fs.read app.config_path = .ok bytes ∧
        parseAppConfig bytes = .error e)) := by
  refine ⟨fun v fs app h => ?_, fun fs app bytes e h1 h2 => ?_,
    fun fs app e h => ?_, fun fs app err h => ?_⟩
  · exact loadConfig_ok fs app (serializeAppConfig v) v h (parse_serialize v)
  · exact loadConfig_parse_error fs app bytes e h1 h2
  · exact loadConfig_read_error fs app e h
  · exact loadConfig_error_inv fs app err h

/-- Witness for C1: a filesystem holding the serialization of a concrete
config value round-trips it; a malformed file and a missing file produce the
two documented wrapped errors. -/
theorem load_config_json_roundtrip_and_failure_modes_witness :
    LoadJsonConfig.loadConfig
        (FS.mk fun _ => .ok (serializeAppConfig (AppConfig.mk "hunter2")))
        (App.mk "app.json") = .ok (AppConfig.mk "hunter2") ∧
    LoadJsonConfig.loadConfig
        (FS.mk fun _ => .ok ['o', 'o', 'p', 's']) (App.mk "app.json") =
      .error (AnyhowError.mk
        (SourceError.serde
          (SerdeErr.mk "expected a JSON object with a string field secret"))
        ["error when parsing JSON config file at path " ++ "app.json"]) ∧
    LoadJsonConfig.loadConfig
        (FS.mk fun _ => .error (IoErr.mk "No such file or directory"))
        (App.mk "app.json") =
      .error (AnyhowError.mk
        (SourceError.io (IoErr.mk "No such file or directory"))
        ["error when reading config file at path " ++ "app.json"]) :=
  And.intro
    (load_config_json_roundtrip_and_failure_modes.1
      (AppConfig.mk "hunter2")
      (FS.mk fun _ => .ok (serializeAppConfig (AppConfig.mk "hunter2")))
      (App.mk "app.json") rfl)
    (And.intro
      (load_config_json_roundtrip_and_failure_modes.2.1
        (FS.mk fun _ => .ok ['o', 'o', 'p', 's']) (App.mk "app.json")
        ['o', 'o', 'p', 's']
        (SerdeErr.mk "expected a JSON object with a string field secret")
        rfl rfl)
      (load_config_json_roundtrip_and_failure_modes.2.2.1
        (FS.mk fun _ => .error (IoErr.mk "No such file or directory"))
        (App.mk "app.json") (IoErr.mk "No such file or directory") rfl))

/-- C2: for every source error value of a type registered in the
`RaiseAppErrors` table, `raise_error` produces a unified error that owns the
source value unchanged (so nothing is discarded), and the source's message
remains recoverable from the unified error's rendered chain. -/
theorem raise_app_errors_lossless :
    ∀ (t : SourceErrorType) (e : t.Carrier),
      App.raiseError t e = AnyhowError.mk (SourceError.ofTyped t e) [] ∧
      (App.raiseError t e).source = SourceError.ofTyped t e ∧
      (SourceError.ofTyped t e).message ∈ (App.raiseError t e).renderChain := by
  intro t e
  cases t <;>
    simp [App.raiseError, UseDelegate.raiseError, RaiseAppErrors.delegate,
      RaiseFrom.raiseError, instIntoAnyhowIoErr, instIntoAnyhowSerdeErr,
      SourceError.ofTyped, AnyhowError.renderChain]

/-- C3: raising is embedded as a total function (the source performs a plain
`From` conversion with no panicking operation), and the original error value
remains inspectable after raising: it is recovered exactly from the unified
error, so distinct source errors stay distinct. -/
theorem raise_error_no_panic_inspectable :
    ∀ (t : SourceErrorType) (e e2 : t.Carrier),
      (App.raiseError t e).source = SourceError.ofTyped t e ∧
      (App.raiseError t e = App.raiseError t e2 → e = e2) := by
  intro t e e2
  cases t with
  | ioError =>
    refine ⟨rfl, fun h => ?_⟩
    simpa [App.raiseError, UseDelegate.raiseError, RaiseAppErrors.delegate,
      RaiseFrom.raiseError, instIntoAnyhowIoErr, AnyhowError.mk.injEq,
      SourceError.io.injEq] using h
  | serdeJsonError =>
    refine ⟨rfl, fun h => ?_⟩
    simpa [App.raiseError, UseDelegate.raiseError, RaiseAppErrors.delegate,
      RaiseFrom.raiseError, instIntoAnyhowSerdeErr, AnyhowError.mk.injEq,
      SourceError.serde.injEq] using h

/-- Witness for C3 at a concrete io error value. -/
theorem raise_error_no_panic_inspectable_witness :
    (App.raiseError .ioError (IoErr.mk "disk read failed")).source =
      SourceError.ofTyped .ioError (IoErr.mk "disk read failed") ∧
    IoErr.mk "disk read failed" = IoErr.mk "disk read failed" :=
  And.intro
    (raise_error_no_panic_inspectable .ioError (IoErr.mk "disk read failed")
      (IoErr.mk "disk read failed")).1
    ((raise_error_no_panic_inspectable .ioError (IoErr.mk "disk read failed")
      (IoErr.mk "disk read failed")).2 rfl)

/-- C4: wrapping a unified error twice through the context's registered
wrapper with details D1 then D2 yields a chain carrying both annotations with
D2's outermost (wrapped last), and the originally raised source error is
still recoverable from the chain. -/
theorem wrap_error_stacking_ordered :
    ∀ (E : AnyhowError) (d1 d2 : ErrLoadJsonConfig App),
      App.wrapError (App.wrapError E d1) d2 =
        AnyhowError.mk E.source
          (errLoadJsonConfigDebug d2 :: errLoadJsonConfigDebug d1 :: E.contexts) ∧
      (App.wrapError (App.wrapError E d1) d2).contexts.head? =
        some (errLoadJsonConfigDebug d2) ∧
      errLoadJsonConfigDebug d1 ∈ (App.wrapError (App.wrapError E d1) d2).contexts ∧
      (App.wrapError (App.wrapError E d1) d2).source = E.source := by
  intro E d1 d2
  refine ⟨rfl, rfl, ?_, rfl⟩
  show errLoadJsonConfigDebug d1 ∈
    errLoadJsonConfigDebug d2 :: errLoadJsonConfigDebug d1 :: E.contexts
  simp

/-- C5: each failure of `load_config` is converted into the unified error
exactly once at the point where it occurs: the returned error is literally
the raise of the source error followed by a single wrapping annotation, so
the original cause is owned unchanged and nothing is re-raised, replaced or
discarded. -/
theorem load_config_raises_once_at_boundary :
    (∀ (fs : FS) (app : App) (e : IoErr),
      fs.read app.config_path = .error e →
      ∃ err, LoadJsonConfig.loadConfig fs app = .error err ∧
        err = App.wrapError (App.raiseError .ioError e)
          (ErrLoadJsonConfig.mk app app.config_path .ReadFile) ∧
        err.source = SourceError.io e ∧ err.contexts.length = 1) ∧
    (∀ (fs : FS) (app : App) (bytes : List Char) (e : SerdeErr),
      fs.read app.config_path = .ok bytes →
      parseAppConfig bytes = .error e →
      ∃ err, LoadJsonConfig.loadConfig fs app = .error err ∧
        err = App.wrapError (App.raiseError .serdeJsonError e)
          (ErrLoadJsonConfig.mk app app.config_path .ParseFile) ∧
        err.source = SourceError.serde e ∧ err.contexts.length = 1) := by
  constructor
  · intro fs app e h
    refine ⟨_, loadConfig_read_error fs app e h, ?_, rfl, rfl⟩
    rw [wrap_raise_io]
    rfl
  · intro fs app bytes e h1 h2
    refine ⟨_, loadConfig_parse_error fs app bytes e h1 h2, ?_, rfl, rfl⟩
    rw [wrap_raise_serde]
    rfl

/-- Witness for C5: the concrete missing-file and malformed-file runs. -/
theorem load_config_raises_once_at_boundary_witness :
    (∃ err, LoadJsonConfig.loadConfig
        (FS.mk fun _ => .error (IoErr.mk "permission denied"))
        (App.mk "cfg.json") = .error err ∧
      err = App.wrapError (App.raiseError .ioError (IoErr.mk "permission denied"))
        (ErrLoadJsonConfig.mk (App.mk "cfg.json")
          (App.mk "cfg.json").config_path .ReadFile) ∧
      err.source = SourceError.io (IoErr.mk "permission denied") ∧
      err.contexts.length = 1) ∧
    (∃ err, LoadJsonConfig.loadConfig
        (FS.mk fun _ => .ok ['n', 'o', 'p', 'e'])
        (App.mk "cfg.json") = .error err ∧
      err = App.wrapError
        (App.raiseError .serdeJsonError
          (SerdeErr.mk "expected a JSON object with a string field secret"))
        (ErrLoadJsonConfig.mk (App.mk "cfg.json")
          (App.mk "cfg.json").config_path .ParseFile) ∧
      err.source = SourceError.serde
        (SerdeErr.mk "expected a JSON object with a string field secret") ∧
      err.contexts.length = 1) :=
  And.intro
    (load_config_raises_once_at_boundary.1
      (FS.mk fun _ => .error (IoErr.mk "permission denied"))
      (App.mk "cfg.json") (IoErr.mk "permission denied") rfl)
    (load_config_raises_once_at_boundary.2
      (FS.mk fun _ => .ok ['n', 'o', 'p', 'e'])
      (App.mk "cfg.json") ['n', 'o', 'p', 'e']
      (SerdeErr.mk "expected a JSON object with a string field secret") rfl rfl)

/-- C6: the wrapping annotation is the detail's `Debug` rendering, a
human-readable string naming the operation and the path: read failures render
as "error when reading config file at path P" and parse failures as "error
when parsing JSON config file at path P", `P` the display form of the
context's config path. -/
theorem load_config_wrap_messages :
    (∀ (ctx : App) (p : Path),
      errLoadJsonConfigDebug (ErrLoadJsonConfig.mk ctx p .ReadFile) =
        "error when reading config file at path " ++ p ∧
      errLoadJsonConfigDebug (ErrLoadJsonConfig.mk ctx p .ParseFile) =
        "error when parsing JSON config file at path " ++ p) ∧
    (∀ (fs : FS) (app : App) (e : IoErr),
      fs.read app.config_path = .error e →
      ∃ err, LoadJsonConfig.loadConfig fs app = .error err ∧
        err.contexts =
          ["error when reading config file at path " ++ app.config_path]) ∧
    (∀ (fs : FS) (app : App) (bytes : List Char) (e : SerdeErr),
      fs.read app.config_path = .ok bytes →
      parseAppConfig bytes = .error e →
      ∃ err, LoadJsonConfig.loadConfig fs app = .error err ∧
        err.contexts =
          ["error when parsing JSON config file at path " ++ app.config_path]) := by
  refine ⟨fun ctx p => ⟨rfl, rfl⟩, fun fs app e h => ?_,
    fun fs app bytes e h1 h2 => ?_⟩
  · exact ⟨_, loadConfig_read_error fs app e h, rfl⟩
  · exact ⟨_, loadConfig_parse_error fs app bytes e h1 h2, rfl⟩

/-- Witness for C6: the two failing runs again, with their literal
annotation strings. -/
theorem load_config_wrap_messages_witness :
    (∃ err, LoadJsonConfig.loadConfig
        (FS.mk fun _ => .error (IoErr.mk "is a directory"))
        (App.mk "etc/app.json") = .error err ∧
      err.contexts =
        ["error when reading config file at path " ++ "etc/app.json"]) ∧
    (∃ err, LoadJsonConfig.loadConfig
        (FS.mk fun _ => .ok ['4', '2'])
        (App.mk "etc/app.json") = .error err ∧
      err.contexts =
        ["error when parsing JSON config file at path " ++ "etc/app.json"]) :=
  And.intro
    (load_config_wrap_messages.2.1
      (FS.mk fun _ => .error (IoErr.mk "is a directory"))
      (App.mk "etc/app.json") (IoErr.mk "is a directory") rfl)
    (load_config_wrap_messages.2.2
      (FS.mk fun _ => .ok ['4', '2']) (App.mk "etc/app.json") ['4', '2']
      (SerdeErr.mk "expected a JSON object with a string field secret") rfl rfl)

/-- C7: for the detail type registered in the `WrapAppErrors` delegation
table, wrapping through `UseDelegate` returns exactly what the delegate
provider `WrapWithAnyhowDebug` returns on the same arguments: the delegation
hop does not change the result. -/
theorem use_delegate_wrap_transparent :
    ∀ (Context : Type) (error : AnyhowError) (detail : ErrLoadJsonConfig Context),
      UseDelegate.wrapError error detail =
        WrapWithAnyhowDebug.wrapError error detail :=
  fun _ _ _ => rfl

/-- C9: `load_config` never mutates the context: with the context threaded
explicitly as state, every branch returns the context it was given (the
source takes `&Context` and only reads it through `config_path`), so every
field, in particular `config_path`, is identical before and after the call,
whether it succeeds or fails; and the state-threaded loader computes the same
result as the direct one. -/
theorem load_config_preserves_context :
    ∀ (fs : FS) (app : App),
      (LoadJsonConfig.loadConfigSt fs app).2 = app ∧
      ((LoadJsonConfig.loadConfigSt fs app).2).config_path = app.config_path ∧
      (LoadJsonConfig.loadConfigSt fs app).1 = LoadJsonConfig.loadConfig fs app := by
  intro fs app
  have h2 : (LoadJsonConfig.loadConfigSt fs app).2 = app := by
    cases hr : fs.read (App.configPath app) with
    | error e => simp [LoadJsonConfig.loadConfigSt, hr]
    | ok bytes =>
      cases hp : parseAppConfig bytes with
      | error e => simp [LoadJsonConfig.loadConfigSt, hr, hp]
      | ok c => simp [LoadJsonConfig.loadConfigSt, hr, hp]
  have h1 : (LoadJsonConfig.loadConfigSt fs app).1 =
      LoadJsonConfig.loadConfig fs app := by
    cases hr : fs.read (App.configPath app) with
    | error e =>
      simp [LoadJsonConfig.loadConfigSt, LoadJsonConfig.loadConfig, hr]
    | ok bytes =>
      cases hp : parseAppConfig bytes with
      | error e =>
        simp [LoadJsonConfig.loadConfigSt, LoadJsonConfig.loadConfig, hr, hp]
      | ok c =>
        simp [LoadJsonConfig.loadConfigSt, LoadJsonConfig.loadConfig, hr, hp]
  exact ⟨h2, by rw [h2], h1⟩

/-- C10: the annotation produced when wrapping with an `ErrLoadJsonConfig`
detail depends only on the detail's `config_path` and `action` fields: two
details equal in those fields but carrying different contexts render the same
string and wrap any error to the same result. -/
theorem wrap_message_context_independent :
    ∀ (Context : Type) (c1 c2 : Context) (p : Path) (a : LoadJsonConfigAction)
      (E : AnyhowError),
      errLoadJsonConfigDebug (ErrLoadJsonConfig.mk c1 p a) =
        errLoadJsonConfigDebug (ErrLoadJsonConfig.mk c2 p a) ∧
      UseDelegate.wrapError E (ErrLoadJsonConfig.mk c1 p a) =
        UseDelegate.wrapError E (ErrLoadJsonConfig.mk c2 p a) := by
  intro Context c1 c2 p a E
  cases a <;> exact ⟨rfl, rfl⟩

/-- C8: `main` builds one context with the fixed config path `Cargo.toml` and
invokes `load_config` on it once; on success the process exits 0, and on
error it terminates with a non-zero exit status, printing the full error
chain, every wrapped context annotation included. -/
theorem main_invokes_once_and_aborts_on_error :
    ∀ fs : FS,
      (∀ c, LoadJsonConfig.loadConfig fs (App.mk "Cargo.toml") = .ok c →
        main fs = .success ∧ (main fs).exitCode = 0) ∧
      (∀ e, LoadJsonConfig.loadConfig fs (App.mk "Cargo.toml") = .error e →
        main fs = .panicked e.renderChain ∧ (main fs).exitCode ≠ 0 ∧
        ∀ msg ∈ e.contexts, msg ∈ e.renderChain) := by
  intro fs
  constructor
  · intro c h
    have hm : main fs = .success := by simp [main, h]
    exact ⟨hm, by rw [hm]; rfl⟩
  · intro e h
    have hm : main fs = .panicked e.renderChain := by simp [main, h]
    refine ⟨hm, by rw [hm]; simp [ProcessExit.exitCode], ?_⟩
    intro msg hmsg
    simp only [AnyhowError.renderChain, List.mem_append]
    exact Or.inl hmsg

/-- Witness for C8: running against a filesystem with no readable files
panics with the annotated chain and a non-zero exit code. -/
theorem main_invokes_once_and_aborts_on_error_witness :
    main (FS.mk fun _ => .error (IoErr.mk "No such file or directory")) =
      .panicked (AnyhowError.renderChain
        (AnyhowError.mk (SourceError.io (IoErr.mk "No such file or directory"))
          ["error when reading config file at path " ++ "Cargo.toml"])) ∧
    (main (FS.mk fun _ => .error (IoErr.mk "No such file or directory"))).exitCode ≠ 0 ∧
    ∀ msg ∈ (AnyhowError.mk (SourceError.io (IoErr.mk "No such file or directory"))
        ["error when reading config file at path " ++ "Cargo.toml"]).contexts,
      msg ∈ (AnyhowError.mk (SourceError.io (IoErr.mk "No such file or directory"))
        ["error when reading config file at path " ++ "Cargo.toml"]).renderChain :=
  (main_invokes_once_and_aborts_on_error
      (FS.mk fun _ => .error (IoErr.mk "No such file or directory"))).2
    (AnyhowError.mk (SourceError.io (IoErr.mk "No such file or directory"))
      ["error when reading config file at path " ++ "Cargo.toml"])
    (loadConfig_read_error
      (FS.mk fun _ => .error (IoErr.mk "No such file or directory"))
      (App.mk "Cargo.toml") (IoErr.mk "No such file or directory") rfl)

end CgpPatterns
